import Mathlib

/-!
Shallow embedding of `src/backend/src/scripts/fetch_yfinance.py`.

Modelling choices:
* Python exceptions are modelled by `Except String α`: `Except.error m` is a
  raised exception whose `str(e)` is `m`.  A value of type `Except String β`
  at the outermost level of a function models "the function either returns
  normally or lets an exception escape".
* The yfinance collaborator (`yf.Ticker(..).history(start, end)`) is an
  opaque function parameter of type `Provider`: given the symbol, start and
  end strings it either raises or returns the table's rows.
* `datetime` objects are modelled by `Date` (year/month/day as `Nat`).  The
  Python `datetime` type only admits years 1..9999, months 1..12 and days
  valid for the month; `strptimeYMD` only constructs such dates, and
  `Date.next` raises (models `OverflowError`) instead of moving past
  `datetime.max = 9999-12-31`, exactly as `+ timedelta(days=1)` does.
  Pandas timestamps in provider rows lie in years 1677..2262.
* Numeric cells of the dataframe are `Cell`: a rational number (float64
  values are carried exactly; no float rounding is at issue in this code,
  which only passes values through) or NaN.  `float(c)` is the identity on
  such cells; `int(c)` truncates toward zero and raises on NaN.
* `json.dumps` + `print` are modelled at the JSON-value level: the process
  stdout is a `JVal`, the JSON document printed.
-/

/-- Calendar date, modelling a Python `datetime.date` / pandas timestamp day. -/
structure Date where
  year : Nat
  month : Nat
  day : Nat
deriving DecidableEq, Repr

/-- Gregorian leap-year rule, as implemented by Python's `datetime`. -/
def isLeap (y : Nat) : Bool :=
  (y % 4 == 0 && y % 100 != 0) || y % 400 == 0

/-- Number of days in a month of a given year (Gregorian calendar). -/
def daysInMonth (y m : Nat) : Nat :=
  if m == 2 then (if isLeap y then 29 else 28)
  else if m == 4 || m == 6 || m == 9 || m == 11 then 30
  else 31

/-- Model of `d + timedelta(days=1)`: the next calendar day.  Stepping past
`datetime.max` (9999-12-31) raises `OverflowError`, modelled as an
`Except.error`. -/
def Date.next (dt : Date) : Except String Date :=
  if dt.day < daysInMonth dt.year dt.month then
    Except.ok ⟨dt.year, dt.month, dt.day + 1⟩
  else if dt.month < 12 then Except.ok ⟨dt.year, dt.month + 1, 1⟩
  else if dt.year < 9999 then Except.ok ⟨dt.year + 1, 1, 1⟩
  else Except.error "date value out of range"

/-- Model of `strftime('%Y-%m-%d')`: zero-padded 4-2-2 digit rendering.
Every date reachable in the program has year 1..9999 (`strptimeYMD` and the
capped `Date.next` construct nothing else, and pandas timestamps lie in
1677..2262), so the leading `% 10` never wraps a reachable value.  The
rendering is faithful for years 1000..9999; below 1000 glibc's `%Y` drops
the zero padding, a disclosed divergence at inputs no provider can emit. -/
def Date.format (dt : Date) : String :=
  String.mk [Nat.digitChar (dt.year / 1000 % 10), Nat.digitChar (dt.year / 100 % 10),
    Nat.digitChar (dt.year / 10 % 10), Nat.digitChar (dt.year % 10), '-',
    Nat.digitChar (dt.month / 10 % 10), Nat.digitChar (dt.month % 10), '-',
    Nat.digitChar (dt.day / 10 % 10), Nat.digitChar (dt.day % 10)]

/-- Numeric value of a digit character, `none` on a non-digit. -/
def digitVal (c : Char) : Option Nat :=
  if c.isDigit then some (c.toNat - 48) else none

/-- The `ValueError` text for input rejected by the format regex.  The real
message quotes the offending input; the model abbreviates it, and no claim
inspects the text. -/
def timeDataMsg : String := "time data does not match format %Y-%m-%d"

/-- Numeric value of a digit segment, `none` if any character is not a
decimal digit. -/
def readDigits (cs : List Char) : Option Nat :=
  cs.foldl
    (fun acc c =>
      match acc, digitVal c with
      | some a, some v => some (a * 10 + v)
      | _, _ => none)
    (some 0)

/-- Validation performed after the `%Y-%m-%d` regex has split the input into
year, month and day digit segments: CPython's regex admits months 1..12 and
days 1..31 (zero-padded or not), then the `datetime` constructor rejects
year 0 and days past the month length. -/
def mkYMD (ys ms ds : List Char) : Except String Date :=
  match readDigits ys, readDigits ms, readDigits ds with
  | some y, some m, some dd =>
    if m < 1 || 12 < m then Except.error timeDataMsg
    else if dd < 1 || 31 < dd then Except.error timeDataMsg
    else if y == 0 then Except.error "year 0 is out of range"
    else if daysInMonth y m < dd then Except.error "day is out of range for month"
    else Except.ok ⟨y, m, dd⟩
  | _, _, _ => Except.error timeDataMsg

/-- Model of `datetime.strptime(s, '%Y-%m-%d')`, following CPython's
`_strptime` regex: the year is exactly four digits, month and day are one or
two digits each, separated by literal dashes with nothing before or after;
the resulting calendar date is then validated, raising `ValueError` (an
`Except.error`) on failure. -/
def strptimeYMD (s : String) : Except String Date :=
  match s.toList with
  | [y1, y2, y3, y4, '-', m1, '-', d1] => mkYMD [y1, y2, y3, y4] [m1] [d1]
  | [y1, y2, y3, y4, '-', m1, '-', d1, d2] => mkYMD [y1, y2, y3, y4] [m1] [d1, d2]
  | [y1, y2, y3, y4, '-', m1, m2, '-', d1] => mkYMD [y1, y2, y3, y4] [m1, m2] [d1]
  | [y1, y2, y3, y4, '-', m1, m2, '-', d1, d2] => mkYMD [y1, y2, y3, y4] [m1, m2] [d1, d2]
  | _ => Except.error timeDataMsg

/-- A numeric dataframe cell: a float64 value carried exactly as a rational,
or NaN. -/
inductive Cell where
  | nan : Cell
  | num : Rat → Cell
deriving DecidableEq, Repr

/-- Model of Python `float(c)` on a numeric cell: the identity (a float64 is
already a float; NaN stays NaN).  It cannot raise on these cells. -/
def pyFloat (c : Cell) : Cell := c

/-- Truncation toward zero, the conversion of Python `int()` on a float:
`Int.tdiv` is T-division, which rounds the quotient toward zero. -/
def ratTrunc (q : Rat) : Int :=
  Int.tdiv q.num (Int.ofNat q.den)

/-- Model of Python `int(c)` on a numeric cell: truncates toward zero;
raises `ValueError` on NaN. -/
def pyInt (c : Cell) : Except String Int :=
  match c with
  | Cell.nan => Except.error "cannot convert float NaN to integer"
  | Cell.num q => Except.ok (ratTrunc q)

/-- One row of the provider's table after `reset_index`: a Date column plus
the OHLCV numeric cells. -/
structure Row where
  date : Date
  «open» : Cell
  high : Cell
  low : Cell
  close : Cell
  volume : Cell
deriving DecidableEq, Repr

/-- One element of the list built by the loop: the dict appended per row. -/
structure Bar where
  date : String
  «open» : Cell
  high : Cell
  low : Cell
  close : Cell
  volume : Int
deriving DecidableEq, Repr

/-- Model of the dict construction for one row:
`{"date": row['Date'].strftime('%Y-%m-%d'), "open": float(row['Open']), ...,
"volume": int(row['Volume'])}`.  Only the `int` cast can raise. -/
def rowToBar (r : Row) : Except String Bar :=
  match pyInt r.volume with
  | Except.error m => Except.error m
  | Except.ok v =>
    Except.ok { date := r.date.format, «open» := pyFloat r.«open», high := pyFloat r.high,
                low := pyFloat r.low, close := pyFloat r.close, volume := v }

/-- Model of the `for _, row in df.iterrows(): results.append(...)` loop:
converts rows in order; the first raising row aborts (its exception
propagates to the enclosing `try`). -/
def convertRows : List Row → Except String (List Bar)
  | [] => Except.ok []
  | r :: rs =>
    match rowToBar r with
    | Except.error m => Except.error m
    | Except.ok b =>
      match convertRows rs with
      | Except.error m => Except.error m
      | Except.ok bs => Except.ok (b :: bs)

/-- The opaque market-data collaborator: symbol, start, end strings to either
a raised exception or the table rows. -/
def Provider := String → String → String → Except String (List Row)

/-- Value returned by `fetch_data`: a list of bars, or the error descriptor
dict built in the `except` clause. -/
inductive FetchResult where
  | bars : List Bar → FetchResult
  | err : String → FetchResult
deriving DecidableEq, Repr

/-- Model of the end-date adjustment in `fetch_data` (the code preceding the
`try` block), branch structure kept as written: both branches parse
`end_date`, add one day and re-format.  `strptime` can raise here, outside
any handler. -/
def adjustEnd (start_date end_date : String) : Except String String :=
  if start_date == end_date then
    match strptimeYMD end_date with
    | Except.error m => Except.error m
    | Except.ok end_dt =>
      match Date.next end_dt with
      | Except.error m => Except.error m
      | Except.ok end_dt2 => Except.ok (Date.format end_dt2)
  else
    match strptimeYMD end_date with
    | Except.error m => Except.error m
    | Except.ok end_dt =>
      match Date.next end_dt with
      | Except.error m => Except.error m
      | Except.ok end_dt2 => Except.ok (Date.format end_dt2)

/-- Modelled from the spec: the single unconditional code path the spec says
the two branches of the end-date adjustment collapse to — parse `end_date`,
add one calendar day, re-format, with no conditional on `start_date`. -/
def adjustEndUnified (end_date : String) : Except String String :=
  match strptimeYMD end_date with
  | Except.error m => Except.error m
  | Except.ok end_dt =>
    match Date.next end_dt with
    | Except.error m => Except.error m
    | Except.ok end_dt2 => Except.ok (Date.format end_dt2)

/-- Model of the body of the `try` block: call the provider; on an empty
table return `[]`; otherwise convert each row.  An `Except.error` is an
exception raised inside the `try`. -/
def tryBody (provider : Provider) (yf_ticker start_date end_date : String) :
    Except String FetchResult :=
  match provider yf_ticker start_date end_date with
  | Except.error m => Except.error m
  | Except.ok rows =>
    if rows.isEmpty then
      Except.ok (FetchResult.bars [])
    else
      match convertRows rows with
      | Except.error m => Except.error m
      | Except.ok bs => Except.ok (FetchResult.bars bs)

/-- Model of `try: ... except Exception as e: return {"error": str(e)}`. -/
def runTry (x : Except String FetchResult) : FetchResult :=
  match x with
  | Except.ok r => r
  | Except.error e => FetchResult.err e

/-- Model of `fetch_data(ticker, start_date, end_date)`.  The outer
`Except.error` is an exception escaping the function (only the end-date
adjustment can produce one; everything after it sits inside the `try`). -/
def fetch_data (provider : Provider) (ticker start_date end_date : String) :
    Except String FetchResult :=
  let yf_ticker := ticker ++ ".JK"
  match adjustEnd start_date end_date with
  | Except.error m => Except.error m
  | Except.ok end2 => Except.ok (runTry (tryBody provider yf_ticker start_date end2))

/-- JSON documents, the level at which `json.dumps` output is modelled. -/
inductive JVal where
  | jstr : String → JVal
  | jnum : Cell → JVal
  | jint : Int → JVal
  | jarr : List JVal → JVal
  | jobj : List (String × JVal) → JVal

/-- JSON document of one bar dict, key order as constructed by the loop. -/
def barJson (b : Bar) : JVal :=
  JVal.jobj [("date", JVal.jstr b.date), ("open", JVal.jnum b.«open»),
    ("high", JVal.jnum b.high), ("low", JVal.jnum b.low),
    ("close", JVal.jnum b.close), ("volume", JVal.jint b.volume)]

/-- JSON document printed for a fetch result. -/
def resultJson : FetchResult → JVal
  | FetchResult.bars l => JVal.jarr (l.map barJson)
  | FetchResult.err m => JVal.jobj [("error", JVal.jstr m)]

/-- JSON error descriptor, the shape of both error payloads. -/
def jsonError (m : String) : JVal :=
  JVal.jobj [("error", JVal.jstr m)]

/-- The usage message of the argument-count check. -/
def usageMsg : String :=
  "Usage: python fetch_yfinance.py TICKER START_DATE END_DATE"

/-- Observable outcome of a completed process: the JSON document on stdout
and the exit code. -/
structure ProcOut where
  stdout : JVal
  exitCode : Nat

/-- Model of the `__main__` block: `argv` is the full `sys.argv` including
the script name.  `Except.error` models an exception escaping to the
interpreter (traceback, nonzero exit, no JSON printed). -/
def script (provider : Provider) (argv : List String) : Except String ProcOut :=
  match argv with
  | _ :: ticker :: start :: stop :: _ =>
    match fetch_data provider ticker start stop with
    | Except.error m => Except.error m
    | Except.ok data => Except.ok { stdout := resultJson data, exitCode := 0 }
  | _ =>
    Except.ok { stdout := jsonError usageMsg, exitCode := 1 }

/-- Boolean check that a string is exactly ten characters `DDDD-DD-DD` with
`D` a decimal digit. -/
def isYMDString (s : String) : Bool :=
  match s.toList with
  | [a, b, c, d, '-', e, f, '-', g, h] =>
    a.isDigit && b.isDigit && c.isDigit && d.isDigit &&
    e.isDigit && f.isDigit && g.isDigit && h.isDigit
  | _ => false

/-! ### Sample data used by witnesses -/

/-- Sample table row for witnesses. -/
def sampleRow1 : Row :=
  ⟨⟨2024, 1, 2⟩, Cell.num 100, Cell.num 110, Cell.num 90, Cell.num 105, Cell.num 12345⟩

/-- Second sample table row for witnesses. -/
def sampleRow2 : Row :=
  ⟨⟨2024, 1, 3⟩, Cell.num 106, Cell.num 112, Cell.num 101, Cell.num 111, Cell.num 6789⟩

/-- Bar corresponding to `sampleRow1`. -/
def sampleBar1 : Bar :=
  ⟨"2024-01-02", Cell.num 100, Cell.num 110, Cell.num 90, Cell.num 105, 12345⟩

/-- Bar corresponding to `sampleRow2`. -/
def sampleBar2 : Bar :=
  ⟨"2024-01-03", Cell.num 106, Cell.num 112, Cell.num 101, Cell.num 111, 6789⟩

/-- Provider returning the two sample rows for every query. -/
def sampleProvider : Provider := fun _ _ _ => Except.ok [sampleRow1, sampleRow2]

/-! ### Helper lemmas -/

theorem digitChar_mod_isDigit (n : Nat) : (Nat.digitChar (n % 10)).isDigit = true := by
  have h : ∀ m, m < 10 → (Nat.digitChar m).isDigit = true := by decide
  exact h _ (Nat.mod_lt _ (by decide))

theorem format_isYMD (dt : Date) : isYMDString (Date.format dt) = true := by
  show ((Nat.digitChar (dt.year / 1000 % 10)).isDigit &&
      (Nat.digitChar (dt.year / 100 % 10)).isDigit &&
      (Nat.digitChar (dt.year / 10 % 10)).isDigit &&
      (Nat.digitChar (dt.year % 10)).isDigit &&
      (Nat.digitChar (dt.month / 10 % 10)).isDigit &&
      (Nat.digitChar (dt.month % 10)).isDigit &&
      (Nat.digitChar (dt.day / 10 % 10)).isDigit &&
      (Nat.digitChar (dt.day % 10)).isDigit) = true
  simp [digitChar_mod_isDigit]

theorem adjustEnd_ok (s e : String) (d d2 : Date) (h : strptimeYMD e = Except.ok d)
    (hn : Date.next d = Except.ok d2) :
    adjustEnd s e = Except.ok (Date.format d2) := by
  unfold adjustEnd
  split <;> simp only [h, hn]

theorem fetch_data_eq (p : Provider) (t s e e2 : String)
    (h : adjustEnd s e = Except.ok e2) :
    fetch_data p t s e = Except.ok (runTry (tryBody p (t ++ ".JK") s e2)) := by
  unfold fetch_data
  rw [h]

theorem tryBody_of_rows (p : Provider) (sym s e2 : String) (rows : List Row)
    (hp : p sym s e2 = Except.ok rows) :
    tryBody p sym s e2 =
      if rows.isEmpty then Except.ok (FetchResult.bars [])
      else
        match convertRows rows with
        | Except.error m => Except.error m
        | Except.ok bs => Except.ok (FetchResult.bars bs) := by
  unfold tryBody
  rw [hp]

theorem convertRows_cons_ok {r : Row} {rs : List Row} {l : List Bar}
    (h : convertRows (r :: rs) = Except.ok l) :
    ∃ b bs, rowToBar r = Except.ok b ∧ convertRows rs = Except.ok bs ∧ l = b :: bs := by
  unfold convertRows at h
  split at h
  · exact Except.noConfusion h
  · rename_i b hb
    split at h
    · exact Except.noConfusion h
    · rename_i bs hc
      injection h with h2
      exact ⟨b, bs, hb, hc, h2.symm⟩

theorem convertRows_spec : ∀ (rows : List Row) (l : List Bar),
    convertRows rows = Except.ok l →
    l.length = rows.length ∧
      ∀ i (hi : i < rows.length) (hl : i < l.length),
        rowToBar (rows.get ⟨i, hi⟩) = Except.ok (l.get ⟨i, hl⟩) := by
  intro rows
  induction rows with
  | nil =>
    intro l h
    unfold convertRows at h
    injection h with h2
    subst h2
    exact ⟨rfl, fun i hi _ => absurd hi (Nat.not_lt_zero i)⟩
  | cons r rs ih =>
    intro l h
    obtain ⟨b, bs, hb, hc, rfl⟩ := convertRows_cons_ok h
    obtain ⟨hlen, hget⟩ := ih bs hc
    refine ⟨by simp [hlen], ?_⟩
    intro i hi hl
    cases i with
    | zero => exact hb
    | succ j =>
      exact hget j (Nat.lt_of_succ_lt_succ hi) (Nat.lt_of_succ_lt_succ hl)

theorem fetch_bars_convert (p : Provider) (t s e e2 : String) (rows : List Row)
    (l : List Bar) (ha : adjustEnd s e = Except.ok e2)
    (hp : p (t ++ ".JK") s e2 = Except.ok rows)
    (hf : fetch_data p t s e = Except.ok (FetchResult.bars l)) :
    convertRows rows = Except.ok l := by
  rw [fetch_data_eq p t s e e2 ha] at hf
  injection hf with h
  rw [tryBody_of_rows p (t ++ ".JK") s e2 rows hp] at h
  cases rows with
  | nil =>
    simp [runTry] at h
    subst h
    rfl
  | cons rr rrs =>
    simp at h
    split at h
    · simp [runTry] at h
    · rename_i bs heq
      simp [runTry] at h
      subst h
      exact heq

theorem rowToBar_fields (r : Row) (b : Bar) (h : rowToBar r = Except.ok b) :
    b.date = Date.format r.date ∧ b.«open» = pyFloat r.«open» ∧ b.high = pyFloat r.high ∧
      b.low = pyFloat r.low ∧ b.close = pyFloat r.close ∧
      ∃ q, r.volume = Cell.num q ∧ b.volume = ratTrunc q := by
  unfold rowToBar at h
  split at h
  · exact Except.noConfusion h
  · rename_i v hv
    injection h with h2
    subst h2
    unfold pyInt at hv
    split at hv
    · exact Except.noConfusion hv
    · rename_i q hq
      injection hv with h3
      subst h3
      exact ⟨rfl, rfl, rfl, rfl, rfl, q, hq, rfl⟩

/-! ### Claim theorems -/

/-- C1 counterexample: for the input `end_date = "bad"` the `strptime` call,
which precedes the `try` block, raises, and the exception propagates out of
`fetch_data` — refuting the claim that no exception propagates for any pair
of date strings. -/
theorem C1_counterexample :
    fetch_data (fun _ _ _ => Except.ok []) "BBCA" "2024-01-02" "bad" =
      Except.error "time data does not match format %Y-%m-%d" := rfl

/-- C1 (amended): every exception raised inside the `try` block — retrieval
and row transformation — is caught and converted to the error descriptor;
whenever the end-date parse-and-increment step (which runs before the `try`
and can raise `ValueError` on an unparseable date or `OverflowError` at
9999-12-31) succeeds, `fetch_data` returns normally, and an exception `m`
raised in the `try` body becomes `FetchResult.err m`. -/
theorem C1_exceptions_caught (p : Provider) (ticker start_date end_date e2 : String)
    (ha : adjustEnd start_date end_date = Except.ok e2) :
    (∃ res, fetch_data p ticker start_date end_date = Except.ok res) ∧
      ∀ m, tryBody p (ticker ++ ".JK") start_date e2 = Except.error m →
        fetch_data p ticker start_date end_date = Except.ok (FetchResult.err m) := by
  constructor
  · exact ⟨runTry (tryBody p (ticker ++ ".JK") start_date e2),
      fetch_data_eq p ticker start_date end_date e2 ha⟩
  · intro m hm
    rw [fetch_data_eq p ticker start_date end_date e2 ha, hm]
    rfl

/-- C1 witness: a provider raising an HTTP error is caught and converted. -/
theorem C1_exceptions_caught_witness :
    fetch_data (fun _ _ _ => Except.error "HTTP Error 404") "BBCA" "2024-01-02" "2024-01-02" =
      Except.ok (FetchResult.err "HTTP Error 404") :=
  (C1_exceptions_caught (fun _ _ _ => Except.error "HTTP Error 404")
      "BBCA" "2024-01-02" "2024-01-02" "2024-01-03" rfl).2 "HTTP Error 404" rfl

/-- C2 counterexample: for `end_date = "9999-12-31"` — a YYYY-MM-DD date —
the pre-`try` increment past `datetime.max` raises `OverflowError`, which
escapes `fetch_data` before the provider is consulted: no query with end
boundary end_date plus one day is made, refuting "in all cases". -/
theorem C2_counterexample :
    fetch_data (fun _ _ _ => Except.ok []) "BBCA" "2024-01-02" "9999-12-31" =
      Except.error "date value out of range" := rfl

/-- C2 (amended): for every end date accepted by `strptime('%Y-%m-%d')`
whose successor day is representable (every parseable date except
9999-12-31), `fetch_data` queries the provider with the end boundary
advanced by exactly one calendar day — the start date plays no role in the
adjustment; for 9999-12-31 the increment raises before any query. -/
theorem C2_end_plus_one_day (p : Provider) (ticker start_date end_date : String)
    (d d2 : Date) (h : strptimeYMD end_date = Except.ok d)
    (hn : Date.next d = Except.ok d2) :
    fetch_data p ticker start_date end_date =
      Except.ok (runTry (tryBody p (ticker ++ ".JK") start_date (Date.format d2))) :=
  fetch_data_eq p ticker start_date end_date _ (adjustEnd_ok start_date end_date d d2 h hn)

/-- C2 witness: with a provider that reports its arguments, the range
2024-01-02 .. 2024-01-05 is queried as the span 2024-01-02 to 2024-01-06. -/
theorem C2_end_plus_one_day_witness :
    fetch_data (fun sym st en => Except.error (sym ++ "|" ++ st ++ "|" ++ en))
        "BBCA" "2024-01-02" "2024-01-05" =
      Except.ok (FetchResult.err "BBCA.JK|2024-01-02|2024-01-06") :=
  C2_end_plus_one_day (fun sym st en => Except.error (sym ++ "|" ++ st ++ "|" ++ en))
    "BBCA" "2024-01-02" "2024-01-05" ⟨2024, 1, 5⟩ ⟨2024, 1, 6⟩ rfl rfl

/-- C3 counterexample: invoked with three positional arguments whose end
date `strptime` rejects, the exception escapes `fetch_data` and the process
neither prints the result as JSON nor exits 0 — refuting the claim that at
least three arguments always yield JSON output and exit code 0. -/
theorem C3_counterexample :
    script (fun _ _ _ => Except.ok []) ["fetch_yfinance.py", "BBCA", "2024-01-02", "bad"] =
      Except.error "time data does not match format %Y-%m-%d" := rfl

/-- C3 (amended): fewer than three positional arguments print the usage
error descriptor and exit 1; with at least three arguments, whenever
`fetch_data` returns normally the process prints its result as JSON and
exits 0 — in particular also when that result is an error descriptor.  When
`fetch_data` instead lets an exception escape (unparseable end date, or the
9999-12-31 increment overflow), the interpreter crashes: non-zero exit, no
JSON. -/
theorem C3_cli_contract (p : Provider) :
    (∀ argv : List String, argv.length < 4 →
        script p argv = Except.ok ⟨jsonError usageMsg, 1⟩) ∧
      ∀ (prog ticker start_date end_date : String) (rest : List String) (res : FetchResult),
        fetch_data p ticker start_date end_date = Except.ok res →
          script p (prog :: ticker :: start_date :: end_date :: rest) =
            Except.ok ⟨resultJson res, 0⟩ := by
  constructor
  · intro argv h
    rcases argv with _ | ⟨a, _ | ⟨b, _ | ⟨c, _ | ⟨d, rest⟩⟩⟩⟩
    · rfl
    · rfl
    · rfl
    · rfl
    · simp only [List.length_cons] at h
      omega
  · intro prog ticker start_date end_date rest res h
    simp only [script, h]

/-- C3 witness: one argument exits 1 with the usage descriptor; three
arguments with an erroring provider exit 0 with the error payload. -/
theorem C3_cli_contract_witness :
    script (fun _ _ _ => Except.error "boom") ["fetch_yfinance.py"] =
        Except.ok ⟨jsonError usageMsg, 1⟩ ∧
      script (fun _ _ _ => Except.error "boom")
          ["fetch_yfinance.py", "BBCA", "2024-01-02", "2024-01-03"] =
        Except.ok ⟨resultJson (FetchResult.err "boom"), 0⟩ :=
  ⟨(C3_cli_contract (fun _ _ _ => Except.error "boom")).1 ["fetch_yfinance.py"] (by decide),
   (C3_cli_contract (fun _ _ _ => Except.error "boom")).2 "fetch_yfinance.py" "BBCA"
     "2024-01-02" "2024-01-03" [] (FetchResult.err "boom") rfl⟩

/-- C4: `fetch_data` queries the provider with the raw ticker suffixed by
".JK", unconditionally and with no validation, for every ticker string:
a provider that raises its own symbol argument observes `ticker ++ ".JK"`. -/
theorem C4_symbol_suffix (ticker start_date end_date e2 : String)
    (h : adjustEnd start_date end_date = Except.ok e2) :
    fetch_data (fun sym _ _ => Except.error sym) ticker start_date end_date =
      Except.ok (FetchResult.err (ticker ++ ".JK")) :=
  fetch_data_eq (fun sym _ _ => Except.error sym) ticker start_date end_date e2 h

/-- C4 witness: input "BBCA" is queried as "BBCA.JK". -/
theorem C4_symbol_suffix_witness :
    fetch_data (fun sym _ _ => Except.error sym) "BBCA" "2024-01-02" "2024-01-02" =
      Except.ok (FetchResult.err "BBCA.JK") :=
  C4_symbol_suffix "BBCA" "2024-01-02" "2024-01-02" "2024-01-03" rfl

/-- C5: when the provider returns an empty table for the adjusted query,
`fetch_data` returns the empty sequence of bars, not an error descriptor. -/
theorem C5_empty_table (p : Provider) (ticker start_date end_date e2 : String)
    (ha : adjustEnd start_date end_date = Except.ok e2)
    (hp : p (ticker ++ ".JK") start_date e2 = Except.ok []) :
    fetch_data p ticker start_date end_date = Except.ok (FetchResult.bars []) := by
  rw [fetch_data_eq p ticker start_date end_date e2 ha,
    tryBody_of_rows p (ticker ++ ".JK") start_date e2 [] hp]
  rfl

/-- C5 witness: an always-empty provider yields the empty bar list. -/
theorem C5_empty_table_witness :
    fetch_data (fun _ _ _ => Except.ok []) "BBCA" "2024-01-02" "2024-01-02" =
      Except.ok (FetchResult.bars []) :=
  C5_empty_table (fun _ _ _ => Except.ok []) "BBCA" "2024-01-02" "2024-01-02"
    "2024-01-03" rfl rfl

/-- C6: each bar `fetch_data` builds from a provider row carries the row
date rendered as a YYYY-MM-DD digit string, the OHLC cells passed through
the `float` cast unchanged (no rounding, no range validation), and the
volume cell converted by the `int` cast to an integer — not a float. -/
theorem C6_row_transformation (p : Provider) (ticker start_date end_date e2 : String)
    (rows : List Row) (l : List Bar) (i : Nat)
    (ha : adjustEnd start_date end_date = Except.ok e2)
    (hp : p (ticker ++ ".JK") start_date e2 = Except.ok rows)
    (hf : fetch_data p ticker start_date end_date = Except.ok (FetchResult.bars l))
    (hi : i < rows.length) (hl : i < l.length) :
    (l.get ⟨i, hl⟩).date = Date.format (rows.get ⟨i, hi⟩).date ∧
      isYMDString (l.get ⟨i, hl⟩).date = true ∧
      (l.get ⟨i, hl⟩).«open» = pyFloat (rows.get ⟨i, hi⟩).«open» ∧
      (l.get ⟨i, hl⟩).high = pyFloat (rows.get ⟨i, hi⟩).high ∧
      (l.get ⟨i, hl⟩).low = pyFloat (rows.get ⟨i, hi⟩).low ∧
      (l.get ⟨i, hl⟩).close = pyFloat (rows.get ⟨i, hi⟩).close ∧
      ∃ q, (rows.get ⟨i, hi⟩).volume = Cell.num q ∧
        (l.get ⟨i, hl⟩).volume = ratTrunc q := by
  have hc := fetch_bars_convert p ticker start_date end_date e2 rows l ha hp hf
  have hg := (convertRows_spec rows l hc).2 i hi hl
  obtain ⟨h1, h2, h3, h4, h5, h6⟩ := rowToBar_fields _ _ hg
  exact ⟨h1, by rw [h1]; exact format_isYMD _, h2, h3, h4, h5, h6⟩

/-- C6 witness: the first sample bar date is the formatted first row date. -/
theorem C6_row_transformation_witness :
    sampleBar1.date = Date.format sampleRow1.date :=
  (C6_row_transformation sampleProvider "BBCA" "2024-01-02" "2024-01-05" "2024-01-06"
    [sampleRow1, sampleRow2] [sampleBar1, sampleBar2] 0 rfl rfl rfl
    (by decide) (by decide)).1

/-- C7 counterexample: a provider exception whose message is the empty
string still exits 0 with stdout the JSON object with an "error" key, but
the error string is empty — refuting the non-emptiness in the claim. -/
theorem C7_counterexample :
    script (fun _ _ _ => Except.error "")
        ["fetch_yfinance.py", "BBCA", "2024-01-02", "2024-01-03"] =
      Except.ok ⟨jsonError "", 0⟩ := rfl

/-- C7 (amended): whenever the provider call raises, the process exits with
code 0 and stdout is the JSON object pairing "error" with the exception
message — which the code does not guarantee to be non-empty. -/
theorem C7_provider_error_exit0 (p : Provider)
    (prog ticker start_date end_date e2 m : String) (rest : List String)
    (ha : adjustEnd start_date end_date = Except.ok e2)
    (hp : p (ticker ++ ".JK") start_date e2 = Except.error m) :
    script p (prog :: ticker :: start_date :: end_date :: rest) =
      Except.ok ⟨jsonError m, 0⟩ := by
  have hf : fetch_data p ticker start_date end_date = Except.ok (FetchResult.err m) := by
    rw [fetch_data_eq p ticker start_date end_date e2 ha]
    unfold tryBody
    rw [hp]
    rfl
  simp only [script, hf]
  rfl

/-- C7 witness: a delisting error message is surfaced via JSON at exit 0. -/
theorem C7_provider_error_exit0_witness :
    script (fun _ _ _ => Except.error "No data found")
        ["fetch_yfinance.py", "BBCA", "2024-01-02", "2024-01-05"] =
      Except.ok ⟨jsonError "No data found", 0⟩ :=
  C7_provider_error_exit0 (fun _ _ _ => Except.error "No data found")
    "fetch_yfinance.py" "BBCA" "2024-01-02" "2024-01-05" "2024-01-06" "No data found"
    [] rfl rfl

/-- C8: the two branches of the end-date adjustment (equal dates versus a
true range) compute the identical transformation, so the conditional is
semantically equal to the single unconditional path. -/
theorem C8_branches_identical (start_date end_date : String) :
    adjustEnd start_date end_date = adjustEndUnified end_date := by
  unfold adjustEnd adjustEndUnified
  split <;> rfl

/-- C9: arguments beyond the first three are ignored: the process outcome
depends only on the ticker, start and end arguments. -/
theorem C9_extra_args_ignored (p : Provider) (prog ticker start_date end_date : String)
    (rest rest' : List String) :
    script p (prog :: ticker :: start_date :: end_date :: rest) =
      script p (prog :: ticker :: start_date :: end_date :: rest') := rfl

/-- C10: whenever the provider returns a non-empty table and `fetch_data`
returns bars, there is exactly one bar per table row, positionally in table
order — no sorting, filtering or deduplication. -/
theorem C10_one_bar_per_row (p : Provider) (ticker start_date end_date e2 : String)
    (rows : List Row) (l : List Bar)
    (ha : adjustEnd start_date end_date = Except.ok e2)
    (hp : p (ticker ++ ".JK") start_date e2 = Except.ok rows)
    (_hrows : rows ≠ [])
    (hf : fetch_data p ticker start_date end_date = Except.ok (FetchResult.bars l)) :
    l.length = rows.length ∧
      ∀ i (hi : i < rows.length) (hl : i < l.length),
        rowToBar (rows.get ⟨i, hi⟩) = Except.ok (l.get ⟨i, hl⟩) :=
  convertRows_spec rows l (fetch_bars_convert p ticker start_date end_date e2 rows l ha hp hf)

/-- C10 witness: in the two-row sample the second output bar is the
conversion of the second input row. -/
theorem C10_one_bar_per_row_witness :
    rowToBar sampleRow2 = Except.ok sampleBar2 :=
  (C10_one_bar_per_row sampleProvider "BBCA" "2024-01-02" "2024-01-05" "2024-01-06"
    [sampleRow1, sampleRow2] [sampleBar1, sampleBar2] rfl rfl
    (List.cons_ne_nil _ _) rfl).2 1 (by decide) (by decide)
